import Mathlib

/-!
# Verification of the equipment-catalog similarity ranking and filtering logic

Shallow embedding of the similarity-scoring and list-filtering code of the
`equipment-stuff` repository (`validate_production_readiness.py`,
`query_examples.py`).  Records are Python dictionaries; the fields the
scoring and filtering code reads are embedded as optional fields of a
structure, so that an absent dictionary key is `none` (Python `dict.get`
with no default returns `None`) and `Option.getD` renders `dict.get(key, d)`.
Python numbers are embedded as rationals.
-/

/-- An equipment-model record as the scripts see it: a dictionary from which
the scoring/filtering code reads the fields below with `.get`.  An absent
key is `none`. `id` renders the `@id` key of the dictionary. -/
structure Record where
  id : Option String := none
  rated_power_hp : Option ℚ := none
  category : Option String := none
  transmission_type : Option String := none
  four_wheel_drive : Option Bool := none
  hours_used : Option ℚ := none
  location : Option String := none
  manufacturer : Option String := none
  deriving DecidableEq, Repr

/-- The Python built-in `max` on two rationals, written out so that it
computes in the kernel. -/
def pymax (a b : ℚ) : ℚ := if a ≤ b then b else a

/-- The Python built-in `abs` on a rational, written out so that it computes
in the kernel. -/
def pyabs (a : ℚ) : ℚ := if a < 0 then -a else a

theorem pymax_eq_max (a b : ℚ) : pymax a b = max a b := by
  rw [pymax, max_def]

theorem pyabs_eq_abs (a : ℚ) : pyabs a = |a| := by
  rcases le_or_lt 0 a with h | h
  · rw [pyabs, if_neg (not_lt.mpr h), abs_of_nonneg h]
  · rw [pyabs, if_pos h, abs_of_neg h]

/-- Embedding of `calculate_similarity_score` from
`validate_production_readiness.py` lines 357-384: returns `-1` when the
candidate `@id` equals the reference `@id`; otherwise a weighted sum of
a horsepower-closeness term (weight 0.4, only when the reference horsepower
is positive), a category-equality term (0.3), a transmission-equality term
(0.2) and a four-wheel-drive-equality term (0.1).  Python `dict.get` comparisons are `Option` equality. -/
def calculate_similarity_score (ref candidate : Record) : ℚ :=
  if candidate.id = ref.id then
    -1
  else
    let score : ℚ := 0
    let ref_hp : ℚ := ref.rated_power_hp.getD 0
    let cand_hp : ℚ := candidate.rated_power_hp.getD 0
    let score : ℚ :=
      if ref_hp > 0 then
        let hp_diff_pct := pyabs (ref_hp - cand_hp) / ref_hp
        let hp_similarity := pymax 0 (1 - hp_diff_pct)
        score + hp_similarity * (4 / 10)
      else score
    let score : ℚ :=
      if ref.category = candidate.category then score + 3 / 10 else score
    let score : ℚ :=
      if ref.transmission_type = candidate.transmission_type then score + 2 / 10
      else score
    let score : ℚ :=
      if ref.four_wheel_drive = candidate.four_wheel_drive then score + 1 / 10
      else score
    score

/-- The loop of `validate_production_readiness.py` lines 386-392: score every
tractor against the reference and keep the pairs whose score is `>= 0`
(dropping the `-1` self sentinel). -/
def similarity_results (reference : Record) (tractors : List Record) :
    List (Record × ℚ) :=
  (tractors.map fun t => (t, calculate_similarity_score reference t)).filter
    fun x => decide (0 ≤ x.2)

/-- Lines 386-395: the scored list sorted by score descending
(a Python `sort` on the score key with reverse order,
a stable sort). -/
def rank_similar (reference : Record) (tractors : List Record) :
    List (Record × ℚ) :=
  (similarity_results reference tractors).mergeSort fun a b => decide (b.2 ≤ a.2)

/-- The first three weighted terms of `calculate_similarity_score`
(horsepower closeness, category, transmission), i.e. the score accumulated
by lines 364-378 before the four-wheel-drive comparison of lines 380-382.
Used to state exactly what the drivetrain comparison adds. -/
def score_without_drivetrain (ref candidate : Record) : ℚ :=
  let score : ℚ := 0
  let ref_hp : ℚ := ref.rated_power_hp.getD 0
  let cand_hp : ℚ := candidate.rated_power_hp.getD 0
  let score : ℚ :=
    if ref_hp > 0 then
      let hp_diff_pct := pyabs (ref_hp - cand_hp) / ref_hp
      let hp_similarity := pymax 0 (1 - hp_diff_pct)
      score + hp_similarity * (4 / 10)
    else score
  let score : ℚ :=
    if ref.category = candidate.category then score + 3 / 10 else score
  let score : ℚ :=
    if ref.transmission_type = candidate.transmission_type then score + 2 / 10
    else score
  score

/-- Embedding of `validate_production_readiness.py` lines 47-48: keep the
tractors whose `rated_power_hp`, read with a default of `0`, lies between
`150` and `400`, both bounds inclusive. -/
def hp_filtered (tractors : List Record) : List Record :=
  tractors.filter fun t =>
    decide (150 ≤ t.rated_power_hp.getD 0) && decide (t.rated_power_hp.getD 0 ≤ 400)

/-- Embedding of `validate_production_readiness.py` line 63, generalised over
the compared constant: keep the tractors whose `category` equals the value
under Python `==`.  `dict.get` with no default returns `None`, so the
comparison is `Option` equality with `some value`: a record missing the
field never matches. -/
def category_equals_filtered (value : String) (tractors : List Record) :
    List Record :=
  tractors.filter fun t => decide (t.category = some value)

/-- Embedding of the filter of `query_low_hours_equipment`,
`query_examples.py` lines 127-128: keep the records whose `hours_used`,
read with a default of `0`, is strictly below `max_hours` (strict upper
bound, no lower bound). -/
def low_hours_filtered (max_hours : ℚ) (all_equipment : List Record) :
    List Record :=
  all_equipment.filter fun eq => decide (eq.hours_used.getD 0 < max_hours)

/-- The Python string method `lower`: lower-case every character. -/
def strLower (s : String) : String := ⟨s.data.map Char.toLower⟩

/-- Auxiliary for the Python `in` test on strings: does `hay` start with
`needle`? -/
def listStartsWith : List Char → List Char → Bool
  | [], _ => true
  | _ :: _, [] => false
  | a :: as, b :: bs => a == b && listStartsWith as bs

/-- The Python `needle in hay` substring test on character lists: `needle`
occurs at some position of `hay` (the empty needle occurs everywhere). -/
def listContainsSub (needle : List Char) : List Char → Bool
  | [] => listStartsWith needle []
  | b :: bs => listStartsWith needle (b :: bs) || listContainsSub needle bs

/-- The Python `needle in hay` test on strings. -/
def strContainsSub (needle hay : String) : Bool :=
  listContainsSub needle.data hay.data

/-- Embedding of the filter of `query_by_manufacturer`, `query_examples.py`
lines 72-73: keep the records whose lower-cased `manufacturer` contains the
lower-cased search name — a missing field is coerced to the empty string. -/
def manufacturer_filtered (manufacturer_name : String)
    (all_equipment : List Record) : List Record :=
  all_equipment.filter fun eq =>
    strContainsSub (strLower manufacturer_name)
      (strLower (eq.manufacturer.getD ""))

/-- Embedding of the filter of `query_by_location`, `query_examples.py`
lines 146-147: keep the records whose lower-cased `location` contains the
lower-cased keyword — a missing field is coerced to the empty string. -/
def location_filtered (location_keyword : String)
    (all_equipment : List Record) : List Record :=
  all_equipment.filter fun eq =>
    strContainsSub (strLower location_keyword) (strLower (eq.location.getD ""))

/-- The horsepower-closeness term of the score, lines 364-370: weight 0.4
applied to `max(0, 1 - |ref_hp - cand_hp| / ref_hp)` when the reference
horsepower is positive, `0` otherwise. -/
def hp_term (ref cand : Record) : ℚ :=
  if ref.rated_power_hp.getD 0 > 0 then
    pymax 0 (1 - pyabs (ref.rated_power_hp.getD 0 - cand.rated_power_hp.getD 0) /
      ref.rated_power_hp.getD 0) * (4 / 10)
  else 0

/-- Unfolding of `calculate_similarity_score` into its four independent
weighted terms (valid in either branch of the self test). -/
theorem calculate_similarity_score_eq (ref cand : Record) :
    calculate_similarity_score ref cand =
      if cand.id = ref.id then -1 else
        hp_term ref cand
        + (if ref.category = cand.category then 3 / 10 else 0)
        + (if ref.transmission_type = cand.transmission_type then 2 / 10 else 0)
        + (if ref.four_wheel_drive = cand.four_wheel_drive then 1 / 10 else 0) := by
  unfold calculate_similarity_score hp_term
  dsimp only
  split_ifs <;> ring

/-- Unfolding of `score_without_drivetrain` into its three weighted terms. -/
theorem score_without_drivetrain_eq (ref cand : Record) :
    score_without_drivetrain ref cand =
      hp_term ref cand
      + (if ref.category = cand.category then 3 / 10 else 0)
      + (if ref.transmission_type = cand.transmission_type then 2 / 10 else 0) := by
  unfold score_without_drivetrain hp_term
  dsimp only
  split_ifs <;> ring

theorem pyabs_nonneg (a : ℚ) : 0 ≤ pyabs a := by
  rw [pyabs_eq_abs]; exact abs_nonneg a

theorem pymax_zero_nonneg (b : ℚ) : 0 ≤ pymax 0 b := by
  rw [pymax_eq_max]; exact le_max_left 0 b

theorem pymax_zero_le_one {b : ℚ} (h : b ≤ 1) : pymax 0 b ≤ 1 := by
  rw [pymax_eq_max]; exact max_le (by norm_num) h

theorem hp_term_nonneg (ref cand : Record) : 0 ≤ hp_term ref cand := by
  unfold hp_term
  split_ifs
  · exact mul_nonneg (pymax_zero_nonneg _) (by norm_num)
  · exact le_refl 0

theorem hp_term_le (ref cand : Record) : hp_term ref cand ≤ 4 / 10 := by
  unfold hp_term
  split_ifs with h
  · have hb : (1 : ℚ) - pyabs (ref.rated_power_hp.getD 0 -
        cand.rated_power_hp.getD 0) / ref.rated_power_hp.getD 0 ≤ 1 := by
      have := div_nonneg (pyabs_nonneg (ref.rated_power_hp.getD 0 -
        cand.rated_power_hp.getD 0)) (le_of_lt h)
      linarith
    calc pymax 0 _ * (4 / 10 : ℚ) ≤ 1 * (4 / 10) :=
          mul_le_mul_of_nonneg_right (pymax_zero_le_one hb) (by norm_num)
      _ = 4 / 10 := one_mul _
  · norm_num

theorem ite_weight_nonneg {c : Prop} [Decidable c] {w : ℚ} (hw : 0 ≤ w) :
    0 ≤ if c then w else 0 := by
  split_ifs <;> simp [hw]

theorem ite_weight_le {c : Prop} [Decidable c] {w : ℚ} (hw : 0 ≤ w) :
    (if c then w else 0) ≤ w := by
  split_ifs <;> simp [hw]

/-- For a non-self candidate the score is a sum of non-negative terms. -/
theorem score_nonneg {ref cand : Record} (h : ¬ cand.id = ref.id) :
    0 ≤ calculate_similarity_score ref cand := by
  rw [calculate_similarity_score_eq, if_neg h]
  have h1 := hp_term_nonneg ref cand
  have h2 : (0:ℚ) ≤ if ref.category = cand.category then 3 / 10 else 0 :=
    ite_weight_nonneg (by norm_num)
  have h3 : (0:ℚ) ≤ if ref.transmission_type = cand.transmission_type
      then 2 / 10 else 0 := ite_weight_nonneg (by norm_num)
  have h4 : (0:ℚ) ≤ if ref.four_wheel_drive = cand.four_wheel_drive
      then 1 / 10 else 0 := ite_weight_nonneg (by norm_num)
  linarith

/-- The score never exceeds `1` (the weights sum to `1`). -/
theorem score_le_one (ref cand : Record) :
    calculate_similarity_score ref cand ≤ 1 := by
  by_cases h : cand.id = ref.id
  · rw [calculate_similarity_score_eq, if_pos h]; norm_num
  · rw [calculate_similarity_score_eq, if_neg h]
    have h1 := hp_term_le ref cand
    have h2 : (if ref.category = cand.category then (3:ℚ) / 10 else 0) ≤ 3 / 10 :=
      ite_weight_le (by norm_num)
    have h3 : (if ref.transmission_type = cand.transmission_type
        then (2:ℚ) / 10 else 0) ≤ 2 / 10 := ite_weight_le (by norm_num)
    have h4 : (if ref.four_wheel_drive = cand.four_wheel_drive
        then (1:ℚ) / 10 else 0) ≤ 1 / 10 := ite_weight_le (by norm_num)
    linarith

/-- A candidate whose `@id` equals that of the reference gets the `-1`
sentinel. -/
theorem score_self {ref cand : Record} (h : cand.id = ref.id) :
    calculate_similarity_score ref cand = -1 := by
  rw [calculate_similarity_score_eq, if_pos h]

/-- The score is non-negative exactly for non-self candidates. -/
theorem score_nonneg_iff (reference c : Record) :
    0 ≤ calculate_similarity_score reference c ↔ ¬ c.id = reference.id := by
  constructor
  · intro h0 hid
    rw [score_self hid] at h0
    norm_num at h0
  · exact score_nonneg

/-- Sorting is a permutation, so membership in the ranking is membership in
the filtered score list. -/
theorem mem_rank_similar {reference : Record} {tractors : List Record}
    {p : Record × ℚ} :
    p ∈ rank_similar reference tractors ↔
      p ∈ similarity_results reference tractors :=
  (List.mergeSort_perm _ _).mem_iff

/-- Membership in the filtered score list, unfolded. -/
theorem mem_similarity_results {reference : Record} {tractors : List Record}
    {p : Record × ℚ} :
    p ∈ similarity_results reference tractors ↔
      p.1 ∈ tractors ∧ p.2 = calculate_similarity_score reference p.1 ∧
        0 ≤ p.2 := by
  unfold similarity_results
  rw [List.mem_filter]
  constructor
  · rintro ⟨hmem, hdec⟩
    obtain ⟨t, ht, heq⟩ := List.mem_map.mp hmem
    subst heq
    exact ⟨ht, rfl, of_decide_eq_true hdec⟩
  · rintro ⟨h1, h2, h3⟩
    refine ⟨List.mem_map.mpr ⟨p.1, h1, ?_⟩, decide_eq_true h3⟩
    rw [← h2]

/-- A non-self candidate agreeing on all four attributes, with positive
reference horsepower, scores the full `0.4 + 0.3 + 0.2 + 0.1 = 1`. -/
theorem score_perfect {ref cand : Record} (hid : ¬ cand.id = ref.id)
    (hpos : 0 < ref.rated_power_hp.getD 0)
    (h1 : ref.rated_power_hp.getD 0 = cand.rated_power_hp.getD 0)
    (h2 : ref.category = cand.category)
    (h3 : ref.transmission_type = cand.transmission_type)
    (h4 : ref.four_wheel_drive = cand.four_wheel_drive) :
    calculate_similarity_score ref cand = 1 := by
  rw [calculate_similarity_score_eq, if_neg hid, if_pos h2, if_pos h3,
    if_pos h4]
  unfold hp_term
  rw [if_pos hpos, ← h1, sub_self]
  norm_num [pyabs, pymax]

/-- A non-self candidate whose horsepower distance reaches the reference
horsepower and which mismatches all three categorical attributes scores `0`. -/
theorem score_dissimilar {ref cand : Record} (hid : ¬ cand.id = ref.id)
    (hd : ref.rated_power_hp.getD 0 ≤
      pyabs (ref.rated_power_hp.getD 0 - cand.rated_power_hp.getD 0))
    (h2 : ¬ ref.category = cand.category)
    (h3 : ¬ ref.transmission_type = cand.transmission_type)
    (h4 : ¬ ref.four_wheel_drive = cand.four_wheel_drive) :
    calculate_similarity_score ref cand = 0 := by
  rw [calculate_similarity_score_eq, if_neg hid, if_neg h2, if_neg h3,
    if_neg h4]
  unfold hp_term
  split_ifs with h
  · have hdiv : (1 : ℚ) ≤ pyabs (ref.rated_power_hp.getD 0 -
        cand.rated_power_hp.getD 0) / ref.rated_power_hp.getD 0 :=
      (one_le_div h).mpr hd
    have hz : pymax 0 (1 - pyabs (ref.rated_power_hp.getD 0 -
        cand.rated_power_hp.getD 0) / ref.rated_power_hp.getD 0) = 0 := by
      rw [pymax_eq_max]
      exact max_eq_left (by linarith)
    rw [hz]
    ring
  · ring

/-- The horsepower term never increases as the absolute horsepower
difference grows. -/
theorem hp_term_anti {ref c1 c2 : Record}
    (hd : pyabs (ref.rated_power_hp.getD 0 - c1.rated_power_hp.getD 0) ≤
      pyabs (ref.rated_power_hp.getD 0 - c2.rated_power_hp.getD 0)) :
    hp_term ref c2 ≤ hp_term ref c1 := by
  unfold hp_term
  split_ifs with h
  · refine mul_le_mul_of_nonneg_right ?_ (by norm_num)
    rw [pymax_eq_max, pymax_eq_max]
    refine max_le_max le_rfl (sub_le_sub_left ?_ 1)
    exact (div_le_div_iff_of_pos_right h).mpr hd
  · exact le_refl 0

/-- Reference tractor used to instantiate C1. -/
def refC1 : Record :=
  { id := some "c1-ref", rated_power_hp := some 200,
    category := some "Row Crop", transmission_type := some "CVT",
    four_wheel_drive := some true }

/-- A candidate with the specs of `refC1` but another identity. -/
def candC1good : Record :=
  { id := some "c1-good", rated_power_hp := some 200,
    category := some "Row Crop", transmission_type := some "CVT",
    four_wheel_drive := some true }

/-- A candidate maximally dissimilar to `refC1`. -/
def candC1bad : Record :=
  { id := some "c1-bad", rated_power_hp := some 600,
    category := some "Utility", transmission_type := some "Powershift",
    four_wheel_drive := some false }

/-- C1: every score the ranker returns lies in `[0, 1]`; a non-self
candidate agreeing with the reference on all four attributes (equal positive
horsepower, equal category, transmission and four-wheel-drive) scores
exactly `1`; a non-self candidate whose absolute horsepower difference
reaches the reference horsepower and which mismatches category,
transmission and four-wheel-drive scores exactly `0`. -/
theorem C1_scores_in_unit_interval :
    (∀ (reference : Record) (tractors : List Record) (p : Record × ℚ),
        p ∈ rank_similar reference tractors → 0 ≤ p.2 ∧ p.2 ≤ 1)
    ∧ (∀ ref cand : Record, ¬ cand.id = ref.id →
        0 < ref.rated_power_hp.getD 0 →
        ref.rated_power_hp.getD 0 = cand.rated_power_hp.getD 0 →
        ref.category = cand.category →
        ref.transmission_type = cand.transmission_type →
        ref.four_wheel_drive = cand.four_wheel_drive →
        calculate_similarity_score ref cand = 1)
    ∧ (∀ ref cand : Record, ¬ cand.id = ref.id →
        ref.rated_power_hp.getD 0 ≤
          pyabs (ref.rated_power_hp.getD 0 - cand.rated_power_hp.getD 0) →
        ¬ ref.category = cand.category →
        ¬ ref.transmission_type = cand.transmission_type →
        ¬ ref.four_wheel_drive = cand.four_wheel_drive →
        calculate_similarity_score ref cand = 0) := by
  refine ⟨?_, ?_, ?_⟩
  · intro reference tractors p hp
    obtain ⟨-, h2, h3⟩ := mem_similarity_results.mp (mem_rank_similar.mp hp)
    refine ⟨h3, ?_⟩
    rw [h2]
    exact score_le_one reference p.1
  · intro ref cand hid hpos h1 h2 h3 h4
    exact score_perfect hid hpos h1 h2 h3 h4
  · intro ref cand hid hd h2 h3 h4
    exact score_dissimilar hid hd h2 h3 h4

/-- Witness for C1 at concrete records. -/
theorem C1_scores_in_unit_interval_witness :
    (0 ≤ ((candC1good, (1 : ℚ))).2 ∧ ((candC1good, (1 : ℚ))).2 ≤ 1)
    ∧ calculate_similarity_score refC1 candC1good = 1
    ∧ calculate_similarity_score refC1 candC1bad = 0 := by
  have hperfect : calculate_similarity_score refC1 candC1good = 1 :=
    C1_scores_in_unit_interval.2.1 refC1 candC1good (by decide)
      (by norm_num [refC1]) (by norm_num [refC1, candC1good]) rfl rfl rfl
  have hdis : calculate_similarity_score refC1 candC1bad = 0 :=
    C1_scores_in_unit_interval.2.2 refC1 candC1bad (by decide)
      (by norm_num [refC1, candC1bad, pyabs]) (by decide) (by decide) (by decide)
  refine ⟨?_, hperfect, hdis⟩
  refine C1_scores_in_unit_interval.1 refC1 [refC1, candC1good]
    (candC1good, (1 : ℚ)) ?_
  exact mem_rank_similar.mpr (mem_similarity_results.mpr
    ⟨by simp, hperfect.symm, by norm_num⟩)

/-- C2: with the candidate in the pool, it appears in the ranking exactly
when its identity differs from the reference identity; exclusion is decided by
identity equality alone, so a value-identical twin with another identity is
always included. -/
theorem C2_self_exclusion_by_identity (reference : Record)
    (tractors : List Record) (cand : Record) (hmem : cand ∈ tractors) :
    (∃ s, (cand, s) ∈ rank_similar reference tractors) ↔
      ¬ cand.id = reference.id := by
  constructor
  · rintro ⟨s, hs⟩ hid
    obtain ⟨-, h2, h3⟩ := mem_similarity_results.mp (mem_rank_similar.mp hs)
    rw [h2, score_self hid] at h3
    norm_num at h3
  · intro hid
    exact ⟨calculate_similarity_score reference cand,
      mem_rank_similar.mpr (mem_similarity_results.mpr
        ⟨hmem, rfl, score_nonneg hid⟩)⟩

/-- Reference tractor used to instantiate C2. -/
def refC2 : Record :=
  { id := some "c2-ref", rated_power_hp := some 300,
    category := some "Row Crop", transmission_type := some "CVT",
    four_wheel_drive := some true }

/-- A spec-identical twin of `refC2` with a different identity. -/
def candC2twin : Record :=
  { id := some "c2-twin", rated_power_hp := some 300,
    category := some "Row Crop", transmission_type := some "CVT",
    four_wheel_drive := some true }

/-- Witness for C2: the spec-identical twin is included, the reference
itself excluded. -/
theorem C2_self_exclusion_by_identity_witness :
    ((∃ s, (candC2twin, s) ∈ rank_similar refC2 [refC2, candC2twin]) ↔
      ¬ candC2twin.id = refC2.id)
    ∧ ((∃ s, (refC2, s) ∈ rank_similar refC2 [refC2, candC2twin]) ↔
      ¬ refC2.id = refC2.id) :=
  ⟨C2_self_exclusion_by_identity refC2 [refC2, candC2twin] candC2twin
      (by simp),
    C2_self_exclusion_by_identity refC2 [refC2, candC2twin] refC2 (by simp)⟩

/-- Reference with the `four_wheel_drive` key absent, all other attributes
maximally matching `candC3`. -/
def refC3 : Record :=
  { id := some "c3-ref", rated_power_hp := some 100,
    category := some "Row Crop", transmission_type := some "CVT" }

/-- Candidate whose `four_wheel_drive` is explicitly `false`. -/
def candC3 : Record :=
  { id := some "c3-cand", rated_power_hp := some 100,
    category := some "Row Crop", transmission_type := some "CVT",
    four_wheel_drive := some false }

/-- C3 counterexample: both values of `four_wheel_drive` are `false` once a
missing value is defaulted to `false`, yet the drivetrain term contributes
nothing: the total score is `0.9`, not `0.4 + 0.3 + 0.2 + 0.1 = 1`, because
`dict.get` yields `None` for the missing key and `None == False` fails. -/
theorem C3_counterexample :
    refC3.four_wheel_drive.getD false = candC3.four_wheel_drive.getD false
    ∧ calculate_similarity_score refC3 candC3 = 9 / 10
    ∧ calculate_similarity_score refC3 candC3 ≠ 1 := by
  have h : calculate_similarity_score refC3 candC3 = 9 / 10 := by
    rw [calculate_similarity_score_eq, if_neg (by decide)]
    norm_num [hp_term, refC3, candC3, pyabs, pymax]
    decide
  refine ⟨rfl, h, ?_⟩
  rw [h]
  norm_num

/-- C3 (amended): the drivetrain comparison adds exactly `0.1` when the two
optional `four_wheel_drive` values are equal as retrieved — a missing value
equals only another missing value, not an explicit `false` — and adds
nothing otherwise. -/
theorem C3_drivetrain_term (ref cand : Record) (hid : ¬ cand.id = ref.id) :
    calculate_similarity_score ref cand =
      score_without_drivetrain ref cand +
        (if ref.four_wheel_drive = cand.four_wheel_drive then 1 / 10 else 0) := by
  rw [calculate_similarity_score_eq, if_neg hid, score_without_drivetrain_eq]

/-- Witness for the amended C3 at the counterexample records. -/
theorem C3_drivetrain_term_witness :
    calculate_similarity_score refC3 candC3 =
      score_without_drivetrain refC3 candC3 +
        (if refC3.four_wheel_drive = candC3.four_wheel_drive then 1 / 10
          else 0) :=
  C3_drivetrain_term refC3 candC3 (by decide)

/-- Reference with zero rated horsepower. -/
def refC5 : Record :=
  { id := some "c5-ref", rated_power_hp := some 0,
    category := some "Utility", transmission_type := some "Powershift",
    four_wheel_drive := some true }

/-- Spec-identical copy of `refC5` with a different identity. -/
def candC5 : Record :=
  { id := some "c5-copy", rated_power_hp := some 0,
    category := some "Utility", transmission_type := some "Powershift",
    four_wheel_drive := some true }

/-- C5 counterexample: a spec-identical copy of a zero-horsepower reference
under a different identity scores `0.6`, not `1`: with `ref_hp = 0` the
horsepower branch is skipped and its `0.4` weight is unreachable. -/
theorem C5_counterexample :
    refC5.id ≠ candC5.id
    ∧ refC5.rated_power_hp = candC5.rated_power_hp
    ∧ refC5.category = candC5.category
    ∧ refC5.transmission_type = candC5.transmission_type
    ∧ refC5.four_wheel_drive = candC5.four_wheel_drive
    ∧ calculate_similarity_score refC5 candC5 = 3 / 5
    ∧ calculate_similarity_score refC5 candC5 ≠ 1 := by
  have h : calculate_similarity_score refC5 candC5 = 3 / 5 := by
    rw [calculate_similarity_score_eq, if_neg (by decide)]
    norm_num [hp_term, refC5, candC5]
  refine ⟨by decide, rfl, rfl, rfl, rfl, h, ?_⟩
  rw [h]
  norm_num

/-- C5 (amended): for a reference with positive rated horsepower, a
candidate with identical specification values but a different identity
scores exactly `1`. -/
theorem C5_twin_scores_one (ref cand : Record) (hid : ¬ cand.id = ref.id)
    (hpos : 0 < ref.rated_power_hp.getD 0)
    (h1 : ref.rated_power_hp = cand.rated_power_hp)
    (h2 : ref.category = cand.category)
    (h3 : ref.transmission_type = cand.transmission_type)
    (h4 : ref.four_wheel_drive = cand.four_wheel_drive) :
    calculate_similarity_score ref cand = 1 :=
  score_perfect hid hpos (by rw [h1]) h2 h3 h4

/-- Witness for the amended C5 at a positive-horsepower twin pair. -/
theorem C5_twin_scores_one_witness :
    calculate_similarity_score refC2 candC2twin = 1 :=
  C5_twin_scores_one refC2 candC2twin (by decide) (by norm_num [refC2])
    rfl rfl rfl rfl

/-- C6: for a reference with positive rated horsepower and two candidates
agreeing with each other on identity, category, transmission and
four-wheel-drive, the candidate at the larger absolute horsepower distance
never scores strictly higher. -/
theorem C6_score_antitone_in_hp_distance (ref c1 c2 : Record)
    (hpos : 0 < ref.rated_power_hp.getD 0)
    (hid : c1.id = c2.id) (hcat : c1.category = c2.category)
    (htr : c1.transmission_type = c2.transmission_type)
    (hfwd : c1.four_wheel_drive = c2.four_wheel_drive)
    (hd : pyabs (ref.rated_power_hp.getD 0 - c1.rated_power_hp.getD 0) ≤
      pyabs (ref.rated_power_hp.getD 0 - c2.rated_power_hp.getD 0)) :
    calculate_similarity_score ref c2 ≤ calculate_similarity_score ref c1 := by
  by_cases h : c1.id = ref.id
  · rw [score_self h, score_self (hid.symm.trans h)]
  · have h2 : ¬ c2.id = ref.id := fun hh => h (hid.trans hh)
    rw [calculate_similarity_score_eq ref c1,
      calculate_similarity_score_eq ref c2, if_neg h, if_neg h2, hcat, htr,
      hfwd]
    exact add_le_add_right (add_le_add_right (add_le_add_right
      (hp_term_anti hd) _) _) _

/-- Reference used to instantiate C6. -/
def refC6 : Record :=
  { id := some "c6-ref", rated_power_hp := some 200,
    category := some "Row Crop", transmission_type := some "CVT",
    four_wheel_drive := some true }

/-- Candidate 20 HP away from `refC6`. -/
def candC6near : Record :=
  { id := some "c6-cand", rated_power_hp := some 180,
    category := some "Row Crop", transmission_type := some "CVT",
    four_wheel_drive := some true }

/-- Candidate 50 HP away from `refC6`, otherwise equal to `candC6near`. -/
def candC6far : Record :=
  { id := some "c6-cand", rated_power_hp := some 150,
    category := some "Row Crop", transmission_type := some "CVT",
    four_wheel_drive := some true }

/-- Witness for C6 at concrete records. -/
theorem C6_score_antitone_in_hp_distance_witness :
    calculate_similarity_score refC6 candC6far ≤
      calculate_similarity_score refC6 candC6near :=
  C6_score_antitone_in_hp_distance refC6 candC6near candC6far
    (by norm_num [refC6]) rfl rfl rfl rfl
    (by norm_num [refC6, candC6near, candC6far, pyabs])

/-- First record of the C9 asymmetry pair. -/
def simA : Record :=
  { id := some "sim-a", rated_power_hp := some 100,
    category := some "Row Crop", transmission_type := some "CVT",
    four_wheel_drive := some true }

/-- Second record of the C9 asymmetry pair: double the horsepower. -/
def simB : Record :=
  { id := some "sim-b", rated_power_hp := some 200,
    category := some "Row Crop", transmission_type := some "CVT",
    four_wheel_drive := some true }

/-- C9: the score is not symmetric — with `simA` (100 HP) as reference
against `simB` (200 HP) the horsepower delta is a full reference unit and
the horsepower term vanishes (score `0.6`), while with `simB` as reference
the same delta is only half a reference unit (score `0.8`), because the
difference is divided by the reference horsepower. -/
theorem C9_score_asymmetric :
    simA.id ≠ simB.id
    ∧ 0 < simA.rated_power_hp.getD 0
    ∧ 0 < simB.rated_power_hp.getD 0
    ∧ simA.rated_power_hp ≠ simB.rated_power_hp
    ∧ calculate_similarity_score simA simB = 3 / 5
    ∧ calculate_similarity_score simB simA = 4 / 5
    ∧ calculate_similarity_score simA simB ≠
        calculate_similarity_score simB simA := by
  have hAB : calculate_similarity_score simA simB = 3 / 5 := by
    rw [calculate_similarity_score_eq, if_neg (by decide)]
    norm_num [hp_term, simA, simB, pyabs, pymax]
  have hBA : calculate_similarity_score simB simA = 4 / 5 := by
    rw [calculate_similarity_score_eq, if_neg (by decide)]
    norm_num [hp_term, simA, simB, pyabs, pymax]
  refine ⟨by decide, by norm_num [simA], by norm_num [simB], ?_, hAB, hBA, ?_⟩
  · simp [simA, simB]
  · rw [hAB, hBA]
    norm_num

/-- C8: the `-1` sentinel appears exactly for identity-equal candidates,
every other candidate scores non-negatively, the `score >= 0` filter
therefore leaves exactly one entry per non-self candidate, and no ranked
entry carries a negative score. -/
theorem C8_sentinel_filter_invariant :
    (∀ ref cand : Record,
        calculate_similarity_score ref cand = -1 ↔ cand.id = ref.id)
    ∧ (∀ ref cand : Record, ¬ cand.id = ref.id →
        0 ≤ calculate_similarity_score ref cand)
    ∧ (∀ (reference : Record) (tractors : List Record),
        (rank_similar reference tractors).length =
          (tractors.filter fun c => decide (¬ c.id = reference.id)).length)
    ∧ (∀ (reference : Record) (tractors : List Record) (p : Record × ℚ),
        p ∈ rank_similar reference tractors → 0 ≤ p.2) := by
  refine ⟨?_, ?_, ?_, ?_⟩
  · intro ref cand
    constructor
    · intro h
      by_contra hid
      have h0 := score_nonneg hid
      rw [h] at h0
      norm_num at h0
    · exact score_self
  · intro ref cand hid
    exact score_nonneg hid
  · intro reference tractors
    unfold rank_similar
    rw [(List.mergeSort_perm _ _).length_eq]
    unfold similarity_results
    rw [List.filter_map, List.length_map]
    have hcongr : List.filter ((fun x : Record × ℚ => decide (0 ≤ x.2)) ∘
        fun t => (t, calculate_similarity_score reference t)) tractors =
        List.filter (fun c => decide (¬ c.id = reference.id)) tractors :=
      List.filter_congr fun c _ =>
        decide_eq_decide.mpr (score_nonneg_iff reference c)
    rw [hcongr]
  · intro reference tractors p hp
    exact (mem_similarity_results.mp (mem_rank_similar.mp hp)).2.2

/-- Witness for C8 at concrete records. -/
theorem C8_sentinel_filter_invariant_witness :
    (calculate_similarity_score refC2 refC2 = -1 ↔ refC2.id = refC2.id)
    ∧ 0 ≤ calculate_similarity_score refC2 candC2twin
    ∧ (rank_similar refC2 [refC2, candC2twin]).length =
        ([refC2, candC2twin].filter fun c => decide (¬ c.id = refC2.id)).length
    ∧ 0 ≤ ((candC2twin, (1 : ℚ))).2 := by
  have hs : calculate_similarity_score refC2 candC2twin = 1 :=
    score_perfect (by decide) (by norm_num [refC2]) rfl rfl rfl rfl
  refine ⟨C8_sentinel_filter_invariant.1 refC2 refC2,
    C8_sentinel_filter_invariant.2.1 refC2 candC2twin (by decide),
    C8_sentinel_filter_invariant.2.2.1 refC2 [refC2, candC2twin],
    C8_sentinel_filter_invariant.2.2.2 refC2 [refC2, candC2twin]
      (candC2twin, 1) (mem_rank_similar.mpr (mem_similarity_results.mpr
        ⟨by simp, hs.symm, by norm_num⟩))⟩

/-- Record with horsepower 140, outside the 150-400 range. -/
def rec140 : Record := { id := some "hp-140", rated_power_hp := some 140 }

/-- Record with horsepower 370, inside the 150-400 range. -/
def rec370 : Record := { id := some "hp-370", rated_power_hp := some 370 }

/-- Record with no `rated_power_hp` key at all. -/
def recNoHP : Record := { id := some "hp-none" }

/-- Record with no `hours_used` key at all. -/
def recNoHours : Record := { id := some "hours-none" }

/-- C4 counterexample: the low-hours threshold has no lower bound, and a
record missing the field is kept, not excluded — `dict.get(field, 0)`
defaults the missing value to `0`, which passes `0 < 1500`. -/
theorem C4_counterexample :
    recNoHours.hours_used = none
    ∧ low_hours_filtered 1500 [recNoHours] = [recNoHours] := by
  refine ⟨rfl, ?_⟩
  norm_num [low_hours_filtered, recNoHours, List.filter]

/-- C4 (amended): the threshold filters read the field with a default of
`0` instead of excluding records that miss it: the horsepower filter keeps
exactly the records whose defaulted value lies in the inclusive range
`[150, 400]` (so a missing field is excluded there only because `0 < 150`),
and the low-hours filter keeps exactly the records whose defaulted value is
strictly below the bound (so a missing field is kept).  With `min = 150`
and `max = 400`, horsepower 140 is excluded and 370 included. -/
theorem C4_threshold_defaults_missing_to_zero :
    (∀ (tractors : List Record) (r : Record),
        r ∈ hp_filtered tractors ↔
          r ∈ tractors ∧ 150 ≤ r.rated_power_hp.getD 0 ∧
            r.rated_power_hp.getD 0 ≤ 400)
    ∧ (∀ (tractors : List Record) (r : Record), r.rated_power_hp = none →
        r ∉ hp_filtered tractors)
    ∧ (∀ (max_hours : ℚ) (l : List Record) (r : Record),
        r ∈ low_hours_filtered max_hours l ↔
          r ∈ l ∧ r.hours_used.getD 0 < max_hours)
    ∧ hp_filtered [rec140, rec370, recNoHP] = [rec370] := by
  have hmem : ∀ (tractors : List Record) (r : Record),
      r ∈ hp_filtered tractors ↔
        r ∈ tractors ∧ 150 ≤ r.rated_power_hp.getD 0 ∧
          r.rated_power_hp.getD 0 ≤ 400 := by
    intro tractors r
    unfold hp_filtered
    rw [List.mem_filter]
    simp
  refine ⟨hmem, ?_, ?_, ?_⟩
  · intro tractors r hnone hmem2
    obtain ⟨-, h1, -⟩ := (hmem tractors r).mp hmem2
    rw [hnone] at h1
    norm_num at h1
  · intro max_hours l r
    unfold low_hours_filtered
    rw [List.mem_filter]
    simp
  · norm_num [hp_filtered, rec140, rec370, recNoHP, List.filter]

/-- Witness for the amended C4 at concrete records. -/
theorem C4_threshold_defaults_missing_to_zero_witness :
    (rec370 ∈ hp_filtered [rec140, rec370, recNoHP] ↔
      rec370 ∈ [rec140, rec370, recNoHP] ∧
        150 ≤ rec370.rated_power_hp.getD 0 ∧
          rec370.rated_power_hp.getD 0 ≤ 400)
    ∧ recNoHP ∉ hp_filtered [rec140, rec370, recNoHP]
    ∧ (recNoHours ∈ low_hours_filtered 1500 [recNoHours] ↔
        recNoHours ∈ [recNoHours] ∧ recNoHours.hours_used.getD 0 < 1500) :=
  ⟨C4_threshold_defaults_missing_to_zero.1 [rec140, rec370, recNoHP] rec370,
    C4_threshold_defaults_missing_to_zero.2.1 [rec140, rec370, recNoHP]
      recNoHP rfl,
    C4_threshold_defaults_missing_to_zero.2.2.1 1500 [recNoHours] recNoHours⟩

/-- Record whose category differs from `"Row Crop"` only in letter case. -/
def recLowerCaseCat : Record :=
  { id := some "lc", category := some "row crop" }

/-- C7 counterexample: the category equality filter is case-sensitive — a
record whose category differs from the query value only in letter case is
dropped, not kept. -/
theorem C7_counterexample :
    recLowerCaseCat.category = some "row crop"
    ∧ strLower "row crop" = strLower "Row Crop"
    ∧ "row crop" ≠ "Row Crop"
    ∧ category_equals_filtered "Row Crop" [recLowerCaseCat] = [] := by
  refine ⟨rfl, by decide, by decide, ?_⟩
  simp [category_equals_filtered, recLowerCaseCat, List.filter]

/-- C7 (amended): the equality filter on the category field is a
case-sensitive exact match on the optional field value: it keeps exactly
the records whose `category` equals the query value (records missing the
field never match), and a record differing from the value only in letter
case is excluded. -/
theorem C7_equals_case_sensitive :
    (∀ (value : String) (tractors : List Record) (r : Record),
        r ∈ category_equals_filtered value tractors ↔
          r ∈ tractors ∧ r.category = some value)
    ∧ category_equals_filtered "Row Crop" [recLowerCaseCat] = [] := by
  constructor
  · intro value tractors r
    unfold category_equals_filtered
    rw [List.mem_filter]
    simp
  · simp [category_equals_filtered, recLowerCaseCat, List.filter]

theorem listContainsSub_nil_needle (hay : List Char) :
    listContainsSub [] hay = true := by
  cases hay <;> rfl

theorem strContainsSub_empty_needle (hay : String) :
    strContainsSub "" hay = true :=
  listContainsSub_nil_needle hay.data

theorem strLower_empty : strLower "" = "" := rfl

theorem strLower_ne_empty {s : String} (h : s ≠ "") : strLower s ≠ "" := by
  obtain ⟨l⟩ := s
  cases l with
  | nil => exact absurd rfl h
  | cons a as =>
    intro hh
    have := congrArg String.data hh
    simp [strLower] at this

theorem strContainsSub_empty_hay {needle : String} (h : needle ≠ "") :
    strContainsSub needle "" = false := by
  obtain ⟨l⟩ := needle
  cases l with
  | nil => exact absurd rfl h
  | cons a as => rfl

/-- C10: in the case-insensitive substring filters a missing field is
coerced to the empty string, so the empty keyword matches every record
(those missing the field included) while a non-empty keyword never matches
a record missing the field. -/
theorem C10_missing_field_coerced_to_empty :
    (∀ (l : List Record) (r : Record),
        r ∈ location_filtered "" l ↔ r ∈ l)
    ∧ (∀ (kw : String) (l : List Record) (r : Record), kw ≠ "" →
        r.location = none → r ∉ location_filtered kw l)
    ∧ (∀ (l : List Record) (r : Record),
        r ∈ manufacturer_filtered "" l ↔ r ∈ l)
    ∧ (∀ (kw : String) (l : List Record) (r : Record), kw ≠ "" →
        r.manufacturer = none → r ∉ manufacturer_filtered kw l) := by
  refine ⟨?_, ?_, ?_, ?_⟩
  · intro l r
    unfold location_filtered
    rw [List.mem_filter]
    simp [strLower_empty, strContainsSub_empty_needle]
  · intro kw l r hkw hloc hmem
    obtain ⟨-, hpred⟩ := List.mem_filter.mp hmem
    rw [hloc] at hpred
    have : strContainsSub (strLower kw) (strLower (Option.getD none "")) =
        false := strContainsSub_empty_hay (strLower_ne_empty hkw)
    rw [this] at hpred
    exact Bool.false_ne_true hpred
  · intro l r
    unfold manufacturer_filtered
    rw [List.mem_filter]
    simp [strLower_empty, strContainsSub_empty_needle]
  · intro kw l r hkw hman hmem
    obtain ⟨-, hpred⟩ := List.mem_filter.mp hmem
    rw [hman] at hpred
    have : strContainsSub (strLower kw) (strLower (Option.getD none "")) =
        false := strContainsSub_empty_hay (strLower_ne_empty hkw)
    rw [this] at hpred
    exact Bool.false_ne_true hpred

/-- Record with neither a `location` nor a `manufacturer` key. -/
def recNoLoc : Record := { id := some "no-fields" }

/-- Witness for C10 at a record missing both searched fields. -/
theorem C10_missing_field_coerced_to_empty_witness :
    (recNoLoc ∈ location_filtered "" [recNoLoc] ↔ recNoLoc ∈ [recNoLoc])
    ∧ recNoLoc ∉ location_filtered "Iowa" [recNoLoc]
    ∧ (recNoLoc ∈ manufacturer_filtered "" [recNoLoc] ↔
        recNoLoc ∈ [recNoLoc])
    ∧ recNoLoc ∉ manufacturer_filtered "Deere" [recNoLoc] :=
  ⟨C10_missing_field_coerced_to_empty.1 [recNoLoc] recNoLoc,
    C10_missing_field_coerced_to_empty.2.1 "Iowa" [recNoLoc] recNoLoc
      (by decide) rfl,
    C10_missing_field_coerced_to_empty.2.2.1 [recNoLoc] recNoLoc,
    C10_missing_field_coerced_to_empty.2.2.2 "Deere" [recNoLoc] recNoLoc
      (by decide) rfl⟩

/-- Cross-check of the concrete scenario printed by the demo: a 370 HP
reference against a 340 HP candidate matching on category, transmission and
four-wheel-drive scores `0.4 * (1 - 30/370) + 0.3 + 0.2 + 0.1 = 358/370`
(about 0.9676). -/
theorem score_concrete_scenario :
    calculate_similarity_score
      { id := some "a", rated_power_hp := some 370, category := some "Row Crop",
        transmission_type := some "CVT", four_wheel_drive := some true }
      { id := some "b", rated_power_hp := some 340, category := some "Row Crop",
        transmission_type := some "CVT", four_wheel_drive := some true }
      = 358 / 370 := by
  norm_num [calculate_similarity_score, pymax, pyabs]
  all_goals decide
